import Mathlib

/-!
Verification of the AI status tracker bot (`status_bot.py`) against its
natural-language specification.

The embedding below translates the relevant parts of the source:
* the status-description normalization inside `check_service_status`,
* the color / presence mapping in `create_status_embed` and
  `update_all_channels`,
* the `ChannelTracker` store (`get_config`, `update_config`,
  `should_update_channel`, `mark_channel_updated`, `set_channel_interval`,
  `should_update_bot_status`) with explicit state passing and an explicit
  trace of in-memory / durable writes,
* the per-tick reconciliation pass `update_all_channels`, driven by an
  environment recording the probe result and channel reachability,
* a small reference-heap model of Python dict shallow copies, used to
  analyse the aliasing behaviour of `get_config` / the `config` property.

Times are rationals (seconds, as `time.time()` returns); intervals are
rationals (minutes).  Python dicts keyed by channel id become association
lists keyed by `Nat`.
-/

namespace StatusBot

/-- Association-list lookup, modelling Python `dict.get` / `dict[k]`. -/
def alookup {α : Type} : List (Nat × α) → Nat → Option α
  | [], _ => none
  | (k, v) :: rest, key => if k = key then some v else alookup rest key

/-- Association-list insert-or-overwrite, modelling Python `d[k] = v`. -/
def aset {α : Type} : List (Nat × α) → Nat → α → List (Nat × α)
  | [], key, v => [(key, v)]
  | (k, w) :: rest, key, v =>
      if k = key then (k, v) :: rest else (k, w) :: aset rest key v

/-- Update the value at a key in place (no-op when the key is absent),
modelling Python `d[k]['field'] = v` on a nested dict. -/
def amodify {α : Type} (l : List (Nat × α)) (key : Nat) (f : α → α) :
    List (Nat × α) :=
  l.map (fun p => if p.1 = key then (p.1, f p.2) else p)

/-- Association-list key removal, modelling Python `d.pop(k)`. -/
def aremove {α : Type} (l : List (Nat × α)) (key : Nat) : List (Nat × α) :=
  l.filter (fun p => p.1 ≠ key)

/-! ### Upstream status prober: description normalization -/

/-- Does the character list `h` start with `n`? -/
def charsStartWith : List Char → List Char → Bool
  | [], _ => true
  | _ :: _, [] => false
  | c :: cs, d :: ds => c = d && charsStartWith cs ds

/-- Does the character list `h` contain `n` as a contiguous run? -/
def charsContain (n : List Char) : List Char → Bool
  | [] => charsStartWith n []
  | d :: ds => charsStartWith n (d :: ds) || charsContain n ds

/-- Python's substring test `needle in haystack`. -/
def strContains (haystack needle : String) : Bool :=
  charsContain needle.data haystack.data

/-- Python's `str.lower()`: lowercase each character (stated on the
character list so that it computes by structural recursion). -/
def strToLower (s : String) : String :=
  ⟨s.data.map Char.toLower⟩

/-- The HTTP-200 branch of `check_service_status` (status_bot.py lines
278-287): lowercase the self-reported description, map an exact
"all systems operational" to `Operational`, a substring match on
"limited" to `Limited`, anything else to `Issues Detected`. -/
def check_service_status_200 (description : String) : String :=
  let status := strToLower description
  if status = "all systems operational" then "Operational"
  else if strContains status "limited" then "Limited"
  else "Issues Detected"

/-! ### Presentation renderer: color and presence mapping -/

inductive EmbedColor where
  | green
  | yellow
  | red
  deriving DecidableEq, Repr

/-- The color selection in `create_status_embed` (lines 393-399):
`all == 'Operational'` gives green, `elif any == 'Limited'` gives yellow,
else red. -/
def create_status_embed_color (openai_status anthropic_status : String) :
    EmbedColor :=
  if openai_status = "Operational" ∧ anthropic_status = "Operational" then
    EmbedColor.green
  else if openai_status = "Limited" ∨ anthropic_status = "Limited" then
    EmbedColor.yellow
  else
    EmbedColor.red

/-- The presence selection in `update_all_channels` (lines 685-691), same
branch structure as the embed color: online / idle / dnd. -/
def presence_status (openai_status anthropic_status : String) : String :=
  if openai_status = "Operational" ∧ anthropic_status = "Operational" then
    "online"
  else if openai_status = "Limited" ∨ anthropic_status = "Limited" then
    "idle"
  else
    "dnd"

/-! ### Configuration store (`ChannelTracker`) -/

/-- One per-channel record of the durable configuration
(`config['channels'][channel_id]`).  `last_update_time` is `none` when the
dict has no such key (as right after `create` builds the record). -/
structure ChannelCfg where
  message_id : Nat
  refresh_interval_minutes : ℚ
  last_update_time : Option ℚ
  deriving DecidableEq, Repr

/-- The durable configuration (`self._config`). -/
structure BotConfig where
  channels : List (Nat × ChannelCfg)
  default_refresh_interval_minutes : ℚ
  deriving DecidableEq, Repr

/-- The in-memory `ChannelTracker` state: the configuration, the
`_last_updates` map, and the last seen service statuses (both start as
Python `None`). -/
structure TrackerState where
  config : BotConfig
  last_updates : List (Nat × ℚ)
  last_openai_status : Option String
  last_anthropic_status : Option String
  deriving DecidableEq, Repr

/-- A write event of a store mutation: the in-memory configuration
becoming a given value (`self._config = ...` or an in-place mutation of
it), or `save_config` writing a configuration to the durable file. -/
inductive StoreEvent where
  | memWrite (c : BotConfig)
  | diskWrite (c : BotConfig)
  deriving DecidableEq, Repr

/-- Does a mutation's write trace put the durable write ahead of the
in-memory one?  Decided by the first write in the trace. -/
def durable_before_memory : List StoreEvent → Bool
  | [] => true
  | StoreEvent.diskWrite _ :: _ => true
  | StoreEvent.memWrite _ :: _ => false

/-- Result of one store operation: the post state, the trace of
configuration writes it performed, and the raised error if any (a raised
error leaves the state as it was at the raise point). -/
structure OpResult where
  state : TrackerState
  events : List StoreEvent
  error : Option String
  deriving Repr

/-- The loop body of `update_config` (lines 123-125): for every channel of
the caller's payload that has an entry in `_last_updates`, overwrite the
payload's `last_update_time` with the in-memory value. -/
def preserve_last_updates (lu : List (Nat × ℚ))
    (chans : List (Nat × ChannelCfg)) : List (Nat × ChannelCfg) :=
  chans.map (fun p =>
    match alookup lu p.1 with
    | some t => (p.1, { p.2 with last_update_time := some t })
    | none => p)

/-- `ChannelTracker.update_config` (lines 119-127): patch the payload's
`last_update_time` fields from `_last_updates`, install it as the
in-memory configuration, then `save_config` it. -/
def update_config (st : TrackerState) (new_config : BotConfig) : OpResult :=
  let patched : BotConfig :=
    { new_config with
        channels := preserve_last_updates st.last_updates new_config.channels }
  { state := { st with config := patched }
    events := [StoreEvent.memWrite patched, StoreEvent.diskWrite patched]
    error := none }

/-- `ChannelTracker.should_update_channel` (lines 129-141): elapsed
minutes since the last update (0 when the channel has no entry) compared
against the channel's interval, falling back to the process default when
the channel is absent from the configuration. -/
def should_update_channel (st : TrackerState) (now : ℚ) (cid : Nat) :
    Bool :=
  let last_update := (alookup st.last_updates cid).getD 0
  let elapsed_minutes := (now - last_update) / 60
  let refresh_interval :=
    match alookup st.config.channels cid with
    | some c => c.refresh_interval_minutes
    | none => st.config.default_refresh_interval_minutes
  decide (refresh_interval ≤ elapsed_minutes)

/-- `ChannelTracker.mark_channel_updated` (lines 143-151): record `now` in
`_last_updates`; when the channel is configured, also write it into the
configuration and `save_config`. -/
def mark_channel_updated (st : TrackerState) (now : ℚ) (cid : Nat) :
    OpResult :=
  let lu := aset st.last_updates cid now
  match alookup st.config.channels cid with
  | some _ =>
      let cfg : BotConfig :=
        { st.config with
            channels := amodify st.config.channels cid
              (fun c => { c with last_update_time := some now }) }
      { state := { st with last_updates := lu, config := cfg }
        events := [StoreEvent.memWrite cfg, StoreEvent.diskWrite cfg]
        error := none }
  | none =>
      { state := { st with last_updates := lu }
        events := []
        error := none }

/-- `ChannelTracker.set_channel_interval` (lines 166-178): raise when the
channel is not configured; otherwise set the interval, copy the in-memory
last update time into the configuration when present, `save_config`, and
finally reset `_last_updates[channel_id]` to 0 (in memory only). -/
def set_channel_interval (st : TrackerState) (cid : Nat) (minutes : ℚ) :
    OpResult :=
  match alookup st.config.channels cid with
  | none =>
      { state := st, events := [], error := some "Channel not found in config" }
  | some _ =>
      let ch1 := amodify st.config.channels cid
        (fun c => { c with refresh_interval_minutes := minutes })
      let ch2 :=
        match alookup st.last_updates cid with
        | some t => amodify ch1 cid
            (fun c => { c with last_update_time := some t })
        | none => ch1
      let cfg : BotConfig := { st.config with channels := ch2 }
      { state := { st with config := cfg, last_updates := aset st.last_updates cid 0 }
        events := [StoreEvent.memWrite cfg, StoreEvent.diskWrite cfg]
        error := none }

/-- `ChannelTracker.should_update_bot_status` (lines 185-195): report
whether either service status changed since last seen and, if so, record
the new pair. -/
def should_update_bot_status (st : TrackerState)
    (openai_status anthropic_status : String) : Bool × TrackerState :=
  let should :=
    decide (st.last_openai_status ≠ some openai_status) ||
    decide (st.last_anthropic_status ≠ some anthropic_status)
  if should then
    (true, { st with
              last_openai_status := some openai_status
              last_anthropic_status := some anthropic_status })
  else
    (false, st)

/-! ### Command surface -/

/-- The literal default of the `interval` parameter in the `create`
command's signature (line 539: `interval: int = 5`). -/
def create_interval_default : ℚ := 5

/-- The `create` command (lines 537-589), store effects only: validate the
interval, refuse when a tracker already exists, otherwise insert the new
channel record (no `last_update_time` key), `update_config`, then
`mark_channel_updated`. -/
def create_cmd (st : TrackerState) (cid message_id : Nat) (now : ℚ)
    (interval : ℚ) : OpResult :=
  if interval < 1 then
    { state := st, events := [], error := some "Interval must be at least 1 minute" }
  else
    match alookup st.config.channels cid with
    | some _ =>
        { state := st, events := []
          error := some "This channel already has a status tracker" }
    | none =>
        let cfg : BotConfig :=
          { st.config with
              channels := aset st.config.channels cid
                ⟨message_id, interval, none⟩ }
        let r1 := update_config st cfg
        let r2 := mark_channel_updated r1.state now cid
        { state := r2.state, events := r1.events ++ r2.events, error := none }

/-- The `default` command `set_default_interval` (lines 996-1065), store
effects only: validate, then write the new process-wide default through
`update_config`. -/
def set_default_interval_cmd (st : TrackerState) (minutes : ℚ) : OpResult :=
  if minutes < 1 then
    { state := st, events := []
      error := some "Default refresh interval must be at least 1 minute" }
  else
    update_config st
      { st.config with default_refresh_interval_minutes := minutes }

/-! ### Reconciliation tick (`update_all_channels`) -/

/-- Environment of one tick: the current time, the snapshot the single
`check_status` call would return, which channels are reachable with
sufficient permissions, which tracked messages still exist, and the id the
platform would assign to a freshly sent message. -/
structure TickEnv where
  now : ℚ
  openai : String
  anthropic : String
  accessible : Nat → Bool
  messageExists : Nat → Bool
  newMessageId : Nat → Nat

/-- Externally visible events of one tick: the probe (`check_status`),
a presence change, and edits / sends of channel notifications carrying the
statuses and interval they render. -/
inductive TickEvent where
  | probe
  | presence (s : String)
  | editMsg (cid : Nat) (openai anthropic : String) (interval : ℚ)
  | sendMsg (cid : Nat) (openai anthropic : String) (interval : ℚ)
  deriving DecidableEq, Repr

/-- The body of the second pass of `update_all_channels` for one channel
(lines 731-769): fetch the channel; if its tracked message exists, edit it
and `mark_channel_updated`; if the message is gone, send a replacement,
store the new message id through `update_config`, and mark; on
channel-level errors skip the channel. -/
def applyChannel (env : TickEnv) (st : TrackerState) (cid : Nat)
    (cc : ChannelCfg) : TrackerState × List TickEvent :=
  if env.accessible cid then
    if env.messageExists cid then
      ((mark_channel_updated st env.now cid).state,
       [TickEvent.editMsg cid env.openai env.anthropic
          cc.refresh_interval_minutes])
    else
      let evs := [TickEvent.sendMsg cid env.openai env.anthropic
        cc.refresh_interval_minutes]
      match alookup st.config.channels cid with
      | some _ =>
          let cfg : BotConfig :=
            { st.config with
                channels := amodify st.config.channels cid
                  (fun c => { c with message_id := env.newMessageId cid }) }
          let st1 := (update_config st cfg).state
          ((mark_channel_updated st1 env.now cid).state, evs)
      | none => (st, evs)
  else
    (st, [])

/-- The second pass of `update_all_channels`, iterating the configuration
snapshot taken before the pass while threading the tracker state. -/
def applyPass (env : TickEnv) :
    TrackerState → List (Nat × ChannelCfg) → TrackerState × List TickEvent
  | st, [] => (st, [])
  | st, (cid, cc) :: rest =>
      let r1 := applyChannel env st cid cc
      let r2 := applyPass env r1.1 rest
      (r2.1, r1.2 ++ r2.2)

/-- The presence-update block of `update_all_channels` (lines 680-697):
a presence change is pushed only when the status pair changed and some
tracked channel is reachable. -/
def presence_events (changed anyServer : Bool) (o a : String) :
    List TickEvent :=
  if changed && anyServer then [TickEvent.presence (presence_status o a)]
  else []

/-- The pruning passes of `update_all_channels` (lines 699-728): collect
the permanently unreachable channels, and if there are any, pop them from
a fresh configuration snapshot, drop their `_last_updates` entries
(`remove_channel`), and install the result with one `update_config`. -/
def prune_stage (env : TickEnv) (st : TrackerState) : TrackerState :=
  let toRemove := st.config.channels.filter (fun p => !(env.accessible p.1))
  if toRemove.isEmpty then st
  else
    let keep := st.config.channels.filter (fun p => env.accessible p.1)
    let lu := st.last_updates.filter (fun p => env.accessible p.1)
    (update_config { st with last_updates := lu }
      { st.config with channels := keep }).state

/-- `update_all_channels` (lines 628-773): read the configuration, call
`check_status` once, update the presence when the status pair changed and
some tracked channel is reachable, prune the channels that are
permanently unreachable in one batch `update_config`, then run the apply
pass over the remaining channels. -/
def update_all_channels (st : TrackerState) (env : TickEnv) :
    TrackerState × List TickEvent :=
  let anyServer := st.config.channels.any (fun p => env.accessible p.1)
  let pres := should_update_bot_status st env.openai env.anthropic
  let presenceEvs := presence_events pres.1 anyServer env.openai env.anthropic
  let stPruned := prune_stage env pres.2
  let ap := applyPass env stPruned stPruned.config.channels
  (ap.1, TickEvent.probe :: (presenceEvs ++ ap.2))

/-- Number of `check_status` invocations recorded in a tick trace. -/
def countProbes (evs : List TickEvent) : Nat :=
  evs.countP (fun e => match e with | TickEvent.probe => true | _ => false)

/-- A tick event renders from the snapshot `(o, a)` when it is an edit or
send carrying exactly those statuses (other events trivially qualify). -/
def eventUsesSnapshot (o a : String) : TickEvent → Prop
  | TickEvent.editMsg _ o' a' _ => o' = o ∧ a' = a
  | TickEvent.sendMsg _ o' a' _ => o' = o ∧ a' = a
  | _ => True

/-! ### Reference-heap model of the configuration dict

`get_config` (lines 114-117) and the `config` property (lines 180-183)
return `self._config.copy()`: a new top-level dict whose values are the
same nested per-channel dict objects.  To analyse what a caller's
mutations of the returned value do to the store, the nested dicts are
modelled as heap cells addressed by `Nat`, and a configuration value holds
addresses. -/

/-- A per-channel dict as a heap object (all three keys present, as after
a tick has run). -/
structure PyChannelRec where
  message_id : Nat
  refresh_interval_minutes : ℚ
  last_update_time : ℚ
  deriving DecidableEq, Repr

/-- The heap of nested per-channel dict objects. -/
abbrev PyHeap := List (Nat × PyChannelRec)

/-- A top-level configuration dict value: channel id to address of the
nested dict, plus the default interval. -/
structure PyConfigObj where
  channels : List (Nat × Nat)
  default_refresh_interval_minutes : ℚ
  deriving DecidableEq, Repr

/-- Python `dict.copy()` on the configuration: a fresh top-level dict with
the same entries; nested dicts are shared by address. -/
def dict_copy (c : PyConfigObj) : PyConfigObj :=
  { channels := c.channels
    default_refresh_interval_minutes := c.default_refresh_interval_minutes }

/-- In-place mutation of a nested per-channel dict object. -/
def heap_write (h : PyHeap) (addr : Nat) (r : PyChannelRec) : PyHeap :=
  aset h addr r

/-- The store's view of a channel's record: follow the internal
configuration's address into the heap. -/
def view_tracker (h : PyHeap) (c : PyConfigObj) (cid : Nat) :
    Option PyChannelRec :=
  match alookup c.channels cid with
  | some addr => alookup h addr
  | none => none

/-! ### Helper lemmas -/

theorem alookup_aset_self {α : Type} (l : List (Nat × α)) (k : Nat) (v : α) :
    alookup (aset l k v) k = some v := by
  induction l with
  | nil => simp [aset, alookup]
  | cons p rest ih =>
      obtain ⟨k', w⟩ := p
      by_cases h : k' = k
      · simp [aset, h, alookup]
      · simp [aset, h, alookup, ih]

theorem alookup_aremove_self {α : Type} (l : List (Nat × α)) (k : Nat) :
    alookup (aremove l k) k = none := by
  induction l with
  | nil => simp [aremove, alookup]
  | cons p rest ih =>
      obtain ⟨k', w⟩ := p
      by_cases h : k' = k
      · simpa [aremove, h] using ih
      · simpa [aremove, h, alookup] using ih

theorem alookup_preserve_last_updates (lu : List (Nat × ℚ))
    (chans : List (Nat × ChannelCfg)) (cid : Nat) :
    alookup (preserve_last_updates lu chans) cid =
      (alookup chans cid).map (fun c =>
        match alookup lu cid with
        | some t => { c with last_update_time := some t }
        | none => c) := by
  induction chans with
  | nil => simp [preserve_last_updates, alookup]
  | cons p rest ih =>
      obtain ⟨k, c⟩ := p
      by_cases h : k = cid
      · subst h
        cases hl : alookup lu k <;>
          simp [preserve_last_updates, alookup, hl]
      · cases hl : alookup lu k <;>
          simpa [preserve_last_updates, alookup, h, hl]
            using ih

theorem charsStartWith_iff (n : List Char) :
    ∀ h : List Char, charsStartWith n h = true ↔ ∃ r, h = n ++ r := by
  induction n with
  | nil =>
      intro h
      simp [charsStartWith]
  | cons c cs ih =>
      intro h
      cases h with
      | nil =>
          simp [charsStartWith]
      | cons d ds =>
          simp only [charsStartWith, Bool.and_eq_true, decide_eq_true_eq, ih]
          constructor
          · rintro ⟨rfl, r, rfl⟩
            exact ⟨r, rfl⟩
          · rintro ⟨r, hr⟩
            injection hr with h1 h2
            exact ⟨h1.symm, r, h2⟩

theorem charsContain_iff (n : List Char) :
    ∀ h : List Char, charsContain n h = true ↔ ∃ l r, h = l ++ n ++ r := by
  intro h
  induction h with
  | nil =>
      simp only [charsContain, charsStartWith_iff]
      constructor
      · rintro ⟨r, hr⟩
        exact ⟨[], r, by simpa using hr⟩
      · rintro ⟨l, r, hr⟩
        refine ⟨r, ?_⟩
        have h0 : l = [] ∧ n = [] ∧ r = [] := by simpa using hr.symm
        simp [h0.1, h0.2.1, h0.2.2]
  | cons d ds ih =>
      simp only [charsContain, Bool.or_eq_true, charsStartWith_iff, ih]
      constructor
      · rintro (⟨r, hr⟩ | ⟨l, r, hr⟩)
        · exact ⟨[], r, by simpa using hr⟩
        · exact ⟨d :: l, r, by simp [hr]⟩
      · rintro ⟨l, r, hr⟩
        cases l with
        | nil =>
            exact Or.inl ⟨r, by simpa using hr⟩
        | cons x xs =>
            injection hr with h1 h2
            exact Or.inr ⟨xs, r, h2⟩

theorem strContains_iff (hs nd : String) :
    strContains hs nd = true ↔ ∃ l r, hs.data = l ++ nd.data ++ r := by
  simpa [strContains] using charsContain_iff nd.data hs.data

theorem applyChannel_trace (env : TickEnv) (st : TrackerState) (cid : Nat)
    (cc : ChannelCfg) :
    countProbes (applyChannel env st cid cc).2 = 0 ∧
    ∀ e ∈ (applyChannel env st cid cc).2,
      eventUsesSnapshot env.openai env.anthropic e := by
  unfold applyChannel
  by_cases h1 : env.accessible cid = true
  · by_cases h2 : env.messageExists cid = true
    · simp [h1, h2, countProbes, eventUsesSnapshot]
    · cases h3 : alookup st.config.channels cid <;>
        simp [h1, h2, h3, countProbes, eventUsesSnapshot]
  · simp [h1, countProbes]

theorem applyPass_trace (env : TickEnv) :
    ∀ (items : List (Nat × ChannelCfg)) (st : TrackerState),
      countProbes (applyPass env st items).2 = 0 ∧
      ∀ e ∈ (applyPass env st items).2,
        eventUsesSnapshot env.openai env.anthropic e := by
  intro items
  induction items with
  | nil =>
      intro st
      simp [applyPass, countProbes]
  | cons p rest ih =>
      intro st
      obtain ⟨cid, cc⟩ := p
      obtain ⟨hc, hm⟩ := applyChannel_trace env st cid cc
      obtain ⟨hc', hm'⟩ := ih (applyChannel env st cid cc).1
      have hsplit : (applyPass env st ((cid, cc) :: rest)).2 =
          (applyChannel env st cid cc).2 ++
            (applyPass env (applyChannel env st cid cc).1 rest).2 := rfl
      constructor
      · rw [hsplit]
        simp only [countProbes, List.countP_append] at *
        omega
      · intro e he
        rw [hsplit] at he
        simp only [List.mem_append] at he
        rcases he with he | he
        · exact hm e he
        · exact hm' e he

theorem presence_events_trace (changed anyServer : Bool) (o a : String) :
    countProbes (presence_events changed anyServer o a) = 0 ∧
    ∀ e ∈ presence_events changed anyServer o a, eventUsesSnapshot o a e := by
  unfold presence_events
  by_cases h : (changed && anyServer) = true <;>
    simp [h, countProbes, eventUsesSnapshot]

/-! ### Claim theorems -/

/-- C10: for every successful (HTTP 200) endpoint response, the
self-reported description is normalized as: lowercased string exactly
equal to "all systems operational" maps to Operational; otherwise a
substring occurrence of "limited" maps to Limited; otherwise to
IssuesDetected.  In particular "All Systems Operational" (mixed case)
normalizes to Operational and "Partial outage" to IssuesDetected. -/
theorem status_description_normalization :
    ∀ d : String,
      (strToLower d = "all systems operational" →
        check_service_status_200 d = "Operational") ∧
      (strToLower d ≠ "all systems operational" →
        (∃ l r : List Char,
          (strToLower d).data = l ++ "limited".data ++ r) →
        check_service_status_200 d = "Limited") ∧
      (strToLower d ≠ "all systems operational" →
        (¬ ∃ l r : List Char,
          (strToLower d).data = l ++ "limited".data ++ r) →
        check_service_status_200 d = "Issues Detected") ∧
      check_service_status_200 "All Systems Operational" = "Operational" ∧
      check_service_status_200 "Partial outage" = "Issues Detected" := by
  intro d
  refine ⟨?_, ?_, ?_, by decide, by decide⟩
  · intro h
    simp [check_service_status_200, h]
  · intro h hsub
    have hc : strContains (strToLower d) "limited" = true :=
      (strContains_iff (strToLower d) "limited").mpr hsub
    simp [check_service_status_200, h, hc]
  · intro h hsub
    have hc : strContains (strToLower d) "limited" = false := by
      by_contra hne
      exact hsub ((strContains_iff (strToLower d) "limited").mp
        (by revert hne
            cases strContains (strToLower d) "limited" <;> simp))
    simp [check_service_status_200, h, hc]

/-- C10 witness: the theorem applied to a description that contains
"limited" but is not the exact operational phrase. -/
theorem status_description_normalization_witness :
    check_service_status_200 "Some Features Limited" = "Limited" :=
  (status_description_normalization "Some Features Limited").2.1
    (by decide)
    ⟨"some features ".data, [], by decide⟩

/-- C6: `set_channel_interval` on an unconfigured channel raises the
not-found error and returns with the store exactly as it was: no tracker
modified and no write (in-memory or durable) performed. -/
theorem set_interval_missing_channel_unchanged
    (st : TrackerState) (cid : Nat) (minutes : ℚ)
    (h : alookup st.config.channels cid = none) :
    set_channel_interval st cid minutes =
      { state := st, events := []
        error := some "Channel not found in config" } := by
  unfold set_channel_interval
  rw [h]

/-- C6 witness: the theorem at an empty store. -/
theorem set_interval_missing_channel_unchanged_witness :
    set_channel_interval ⟨⟨[], 5⟩, [], none, none⟩ 1 7 =
      { state := ⟨⟨[], 5⟩, [], none, none⟩, events := []
        error := some "Channel not found in config" } :=
  set_interval_missing_channel_unchanged ⟨⟨[], 5⟩, [], none, none⟩ 1 7 rfl

/-- C3 counterexample: a destination absent from the store (empty
configuration and empty last-updates map) is reported as due by
`should_update_channel` (at `now = 600` seconds with the default interval
of 5 minutes), contradicting "an absent destination is never due". -/
theorem absent_channel_reported_due :
    alookup (BotConfig.channels ⟨[], 5⟩) 1 = none ∧
    should_update_channel ⟨⟨[], 5⟩, [], none, none⟩ 600 1 = true := by
  constructor
  · rfl
  · simp only [should_update_channel, alookup]
    norm_num

/-- C3 (amended): for a destination present in the store (with an entry in
both the configuration and the last-updates map) the due check returns
true iff `now - last_update_time >= 60 * refresh_interval` (seconds
against minutes converted to seconds, equality counting as due); a
destination absent from both maps is treated as never updated with the
process default interval, so it is due iff `now >= 60 * default_interval`
(not "never due"). -/
theorem should_update_channel_spec (st : TrackerState) (now : ℚ)
    (cid : Nat) :
    (∀ t c, alookup st.last_updates cid = some t →
        alookup st.config.channels cid = some c →
        (should_update_channel st now cid = true ↔
          60 * c.refresh_interval_minutes ≤ now - t)) ∧
    (alookup st.last_updates cid = none →
      alookup st.config.channels cid = none →
      (should_update_channel st now cid = true ↔
        60 * st.config.default_refresh_interval_minutes ≤ now)) := by
  constructor
  · intro t c h1 h2
    simp only [should_update_channel, h1, h2, Option.getD_some,
      decide_eq_true_eq]
    rw [le_div_iff₀ (by norm_num : (0:ℚ) < 60)]
    constructor
    · intro h
      linarith
    · intro h
      linarith
  · intro h1 h2
    simp only [should_update_channel, h1, h2, Option.getD_none,
      decide_eq_true_eq]
    rw [le_div_iff₀ (by norm_num : (0:ℚ) < 60)]
    constructor
    · intro h
      linarith
    · intro h
      linarith

/-- C3 witness: a tracker with a 5-minute interval last updated at time 0
is due at exactly `now = 300` seconds (equality counts as due). -/
theorem should_update_channel_spec_witness :
    should_update_channel
      ⟨⟨[(1, ⟨10, 5, some 0⟩)], 5⟩, [(1, 0)], none, none⟩ 300 1 = true :=
  ((should_update_channel_spec
      ⟨⟨[(1, ⟨10, 5, some 0⟩)], 5⟩, [(1, 0)], none, none⟩ 300 1).1
    0 ⟨10, 5, some 0⟩ rfl rfl).mpr (by norm_num)

/-- C4 counterexample: the status pair (IssuesDetected, Limited) selects
the caution color (yellow / idle presence), not the alert color (red /
dnd) the claim requires. -/
theorem issues_and_limited_renders_caution :
    create_status_embed_color "Issues Detected" "Limited" =
      EmbedColor.yellow ∧
    create_status_embed_color "Issues Detected" "Limited" ≠
      EmbedColor.red ∧
    presence_status "Issues Detected" "Limited" = "idle" ∧
    presence_status "Issues Detected" "Limited" ≠ "dnd" := by
  refine ⟨by decide, by decide, by decide, by decide⟩

/-- C4 (amended): both Operational selects the healthy color (green /
online); otherwise any Limited — even when the other service reports
IssuesDetected — selects the caution color (yellow / idle); the alert
color (red / dnd) is selected only when neither service is Limited and
they are not both Operational.  This holds for both the notification
embed color and the derived platform-wide presence. -/
theorem status_color_mapping (o a : String) :
    ((o = "Operational" ∧ a = "Operational") →
      create_status_embed_color o a = EmbedColor.green ∧
      presence_status o a = "online") ∧
    (¬(o = "Operational" ∧ a = "Operational") →
      (o = "Limited" ∨ a = "Limited") →
      create_status_embed_color o a = EmbedColor.yellow ∧
      presence_status o a = "idle") ∧
    (¬(o = "Operational" ∧ a = "Operational") →
      ¬(o = "Limited" ∨ a = "Limited") →
      create_status_embed_color o a = EmbedColor.red ∧
      presence_status o a = "dnd") := by
  unfold create_status_embed_color presence_status
  refine ⟨?_, ?_, ?_⟩ <;> intros <;> split_ifs <;> simp_all

/-- C4 witness: the theorem at the pair (Limited, Operational). -/
theorem status_color_mapping_witness :
    create_status_embed_color "Limited" "Operational" =
      EmbedColor.yellow ∧
    presence_status "Limited" "Operational" = "idle" :=
  (status_color_mapping "Limited" "Operational").2.1
    (by decide) (by decide)

/-- C5 counterexample: the caller's payload for channel 1 explicitly
supplies the newer `last_update_time = 200`, but `update_config` stores
the prior in-memory value 100 — a caller-supplied newer value is not
honored. -/
theorem caller_supplied_last_update_overwritten :
    alookup (update_config
        ⟨⟨[(1, ⟨5, 5, some 100⟩)], 5⟩, [(1, 100)], none, none⟩
        ⟨[(1, ⟨5, 5, some 200⟩)], 5⟩).state.config.channels 1 =
      some ⟨5, 5, some 100⟩ ∧
    alookup (update_config
        ⟨⟨[(1, ⟨5, 5, some 100⟩)], 5⟩, [(1, 100)], none, none⟩
        ⟨[(1, ⟨5, 5, some 200⟩)], 5⟩).state.config.channels 1 ≠
      some ⟨5, 5, some 200⟩ := by
  refine ⟨by decide, by decide⟩

/-- C5 (amended): for every destination of the new configuration that has
a prior in-memory last-update entry, `update_config` always stores that
prior in-memory value, discarding whatever the caller's payload holds
(including an omitted field) — so the stored value is never regressed
below the prior one, but a caller-supplied value is never honored either;
a destination with no prior in-memory entry keeps the caller's payload
unchanged. -/
theorem update_config_last_update_preservation
    (st : TrackerState) (new_config : BotConfig) (cid : Nat)
    (c : ChannelCfg) :
    (∀ t, alookup st.last_updates cid = some t →
      alookup new_config.channels cid = some c →
      alookup (update_config st new_config).state.config.channels cid =
        some { c with last_update_time := some t }) ∧
    (alookup st.last_updates cid = none →
      alookup new_config.channels cid = some c →
      alookup (update_config st new_config).state.config.channels cid =
        some c) := by
  constructor
  · intro t h1 h2
    show alookup (preserve_last_updates st.last_updates new_config.channels)
        cid = _
    rw [alookup_preserve_last_updates, h1, h2]
    rfl
  · intro h1 h2
    show alookup (preserve_last_updates st.last_updates new_config.channels)
        cid = _
    rw [alookup_preserve_last_updates, h1, h2]
    rfl

/-- C5 witness: a payload omitting `last_update_time` (the field is
`none`) gets the prior in-memory value 100. -/
theorem update_config_last_update_preservation_witness :
    alookup (update_config
        ⟨⟨[(2, ⟨5, 5, some 100⟩)], 5⟩, [(2, 100)], none, none⟩
        ⟨[(2, ⟨5, 5, none⟩)], 5⟩).state.config.channels 2 =
      some ⟨5, 5, some 100⟩ :=
  (update_config_last_update_preservation
      ⟨⟨[(2, ⟨5, 5, some 100⟩)], 5⟩, [(2, 100)], none, none⟩
      ⟨[(2, ⟨5, 5, none⟩)], 5⟩ 2 ⟨5, 5, none⟩).1 100 rfl rfl

/-- C9 counterexample: `update_config` installs the new configuration
in memory first and only then writes it to durable storage — the first
write of its trace is the in-memory one, so the durable write does not
precede the in-memory copy becoming authoritative. -/
theorem memory_updated_before_disk :
    (update_config ⟨⟨[], 5⟩, [], none, none⟩ ⟨[], 7⟩).events =
      [StoreEvent.memWrite ⟨[], 7⟩, StoreEvent.diskWrite ⟨[], 7⟩] ∧
    durable_before_memory
      (update_config ⟨⟨[], 5⟩, [], none, none⟩ ⟨[], 7⟩).events = false := by
  refine ⟨by decide, by decide⟩

/-- C9 (amended): every store mutation (`update_config`,
`mark_channel_updated` on a configured channel, `set_channel_interval` on
a configured channel) performs exactly one in-memory configuration write
immediately followed by one durable write in the same critical section,
and what is persisted is exactly the mutation's final in-memory
configuration. -/
theorem mutations_persist_in_critical_section
    (st : TrackerState) (new_config : BotConfig) (now minutes : ℚ)
    (cid : Nat) :
    ((update_config st new_config).events =
      [StoreEvent.memWrite (update_config st new_config).state.config,
       StoreEvent.diskWrite (update_config st new_config).state.config]) ∧
    ((alookup st.config.channels cid).isSome = true →
      (mark_channel_updated st now cid).events =
        [StoreEvent.memWrite
           (mark_channel_updated st now cid).state.config,
         StoreEvent.diskWrite
           (mark_channel_updated st now cid).state.config]) ∧
    ((alookup st.config.channels cid).isSome = true →
      (set_channel_interval st cid minutes).events =
        [StoreEvent.memWrite
           (set_channel_interval st cid minutes).state.config,
         StoreEvent.diskWrite
           (set_channel_interval st cid minutes).state.config]) := by
  refine ⟨rfl, ?_, ?_⟩
  · intro h
    rw [Option.isSome_iff_exists] at h
    obtain ⟨c, hc⟩ := h
    simp [mark_channel_updated, hc]
  · intro h
    rw [Option.isSome_iff_exists] at h
    obtain ⟨c, hc⟩ := h
    simp [set_channel_interval, hc]

/-- C9 witness: the theorem's `mark_channel_updated` part at a one-channel
store. -/
theorem mutations_persist_in_critical_section_witness :
    (mark_channel_updated
        ⟨⟨[(3, ⟨9, 5, some 0⟩)], 5⟩, [(3, 0)], none, none⟩ 50 3).events =
      [StoreEvent.memWrite
         ((mark_channel_updated
           ⟨⟨[(3, ⟨9, 5, some 0⟩)], 5⟩, [(3, 0)], none, none⟩ 50 3).state.config),
       StoreEvent.diskWrite
         ((mark_channel_updated
           ⟨⟨[(3, ⟨9, 5, some 0⟩)], 5⟩, [(3, 0)], none, none⟩ 50 3).state.config)] :=
  (mutations_persist_in_critical_section
      ⟨⟨[(3, ⟨9, 5, some 0⟩)], 5⟩, [(3, 0)], none, none⟩
      ⟨[], 5⟩ 50 0 3).2.1 (by decide)

/-- C1 counterexample: a tick over an empty configuration — so no
destination at all, hence none due — still invokes the Prober once
(`check_status` is called unconditionally at the start of
`update_all_channels`), contradicting "the Prober is not invoked at all
during that tick". -/
theorem probe_called_with_no_due_channels :
    (BotConfig.channels ⟨[], 5⟩ = []) ∧
    countProbes (update_all_channels ⟨⟨[], 5⟩, [], none, none⟩
        ⟨0, "Operational", "Operational", fun _ => true, fun _ => true,
         fun _ => 0⟩).2 = 1 := by
  refine ⟨rfl, by decide⟩

/-- C1 (amended): every reconciliation tick invokes the Prober exactly
once, whether or not any destination is due, and every notification edit
or send of the tick renders the single snapshot that probe returned. -/
theorem probe_exactly_once_per_tick (st : TrackerState) (env : TickEnv) :
    countProbes (update_all_channels st env).2 = 1 ∧
    ∀ e ∈ (update_all_channels st env).2,
      eventUsesSnapshot env.openai env.anthropic e := by
  have hsplit : (update_all_channels st env).2 =
      TickEvent.probe ::
        (presence_events
            (should_update_bot_status st env.openai env.anthropic).1
            (st.config.channels.any (fun p => env.accessible p.1))
            env.openai env.anthropic ++
          (applyPass env
            (prune_stage env
              (should_update_bot_status st env.openai env.anthropic).2)
            (prune_stage env
              (should_update_bot_status st env.openai
                env.anthropic).2).config.channels).2) := rfl
  obtain ⟨hp1, hp2⟩ := presence_events_trace
    (should_update_bot_status st env.openai env.anthropic).1
    (st.config.channels.any (fun p => env.accessible p.1))
    env.openai env.anthropic
  obtain ⟨ha1, ha2⟩ := applyPass_trace env
    (prune_stage env
      (should_update_bot_status st env.openai
        env.anthropic).2).config.channels
    (prune_stage env
      (should_update_bot_status st env.openai env.anthropic).2)
  constructor
  · rw [hsplit]
    simp only [countProbes, List.countP_cons, List.countP_append]
    simp only [countProbes] at hp1 ha1
    rw [hp1, ha1]
    simp
  · intro e he
    rw [hsplit] at he
    simp only [List.mem_cons, List.mem_append] at he
    rcases he with rfl | he | he
    · exact trivial
    · exact hp2 e he
    · exact ha2 e he

/-- C1 witness: the theorem at a one-channel store; the probe event of
the resulting trace trivially renders the snapshot. -/
theorem probe_exactly_once_per_tick_witness :
    countProbes (update_all_channels
        ⟨⟨[(1, ⟨10, 5, some 0⟩)], 5⟩, [(1, 0)], none, none⟩
        ⟨0, "Operational", "Limited", fun _ => true, fun _ => true,
         fun _ => 0⟩).2 = 1 ∧
    eventUsesSnapshot "Operational" "Limited" TickEvent.probe :=
  ⟨(probe_exactly_once_per_tick
      ⟨⟨[(1, ⟨10, 5, some 0⟩)], 5⟩, [(1, 0)], none, none⟩
      ⟨0, "Operational", "Limited", fun _ => true, fun _ => true,
       fun _ => 0⟩).1,
   (probe_exactly_once_per_tick
      ⟨⟨[(1, ⟨10, 5, some 0⟩)], 5⟩, [(1, 0)], none, none⟩
      ⟨0, "Operational", "Limited", fun _ => true, fun _ => true,
       fun _ => 0⟩).2 TickEvent.probe (by decide)⟩

/-- C2: a tracker with `refresh_interval = 5` minutes last updated at
`t = 0` is not due at the tick at `now = 60` seconds
(`should_update_channel` is false), yet the tick edits its notification
and resets its `last_update_time` to 60 — `update_all_channels` never
consults the due check, so every tracked channel is updated every tick. -/
theorem not_due_channel_updated_every_tick :
    should_update_channel
      ⟨⟨[(1, ⟨10, 5, some 0⟩)], 5⟩, [(1, 0)], none, none⟩ 60 1 = false ∧
    (update_all_channels
        ⟨⟨[(1, ⟨10, 5, some 0⟩)], 5⟩, [(1, 0)], none, none⟩
        ⟨60, "Operational", "Operational", fun _ => true, fun _ => true,
         fun _ => 999⟩).2 =
      [TickEvent.probe, TickEvent.presence "online",
       TickEvent.editMsg 1 "Operational" "Operational" 5] ∧
    alookup (update_all_channels
        ⟨⟨[(1, ⟨10, 5, some 0⟩)], 5⟩, [(1, 0)], none, none⟩
        ⟨60, "Operational", "Operational", fun _ => true, fun _ => true,
         fun _ => 999⟩).1.last_updates 1 = some 60 := by
  refine ⟨?_, by decide, by decide⟩
  simp only [should_update_channel, alookup]
  norm_num

/-- C7: after `set_default_interval` raises the process-wide default to
10 minutes, a `create` invoked without an explicit interval argument (so
with the signature's literal default) stores a tracker with
`refresh_interval = 5`, not the store's current default 10. -/
theorem create_ignores_default_interval :
    ((set_default_interval_cmd
      ⟨⟨[], 5⟩, [], none, none⟩ 10).state.config.default_refresh_interval_minutes) = 10 ∧
    alookup (create_cmd
        (set_default_interval_cmd ⟨⟨[], 5⟩, [], none, none⟩ 10).state
        1 100 0 create_interval_default).state.config.channels 1 =
      some ⟨100, 5, some 0⟩ ∧
    (5 : ℚ) ≠ 10 := by
  refine ⟨by decide, by decide, by decide⟩

/-- C8 counterexample: the store's configuration maps channel 1 to the
nested record at address 0; the shallow copy returned by `get_config`
exposes that same address, and an in-place mutation through it (setting
`message_id` to 99) changes the record the store's internal configuration
sees — the internal Configuration is not unchanged. -/
theorem nested_mutation_leaks_through_copy :
    alookup (dict_copy ⟨[(1, 0)], 5⟩).channels 1 = some 0 ∧
    view_tracker [(0, ⟨10, 5, 0⟩)] ⟨[(1, 0)], 5⟩ 1 = some ⟨10, 5, 0⟩ ∧
    view_tracker (heap_write [(0, ⟨10, 5, 0⟩)] 0 ⟨99, 5, 0⟩)
      ⟨[(1, 0)], 5⟩ 1 = some ⟨99, 5, 0⟩ ∧
    (some (⟨99, 5, 0⟩ : PyChannelRec) ≠ some (⟨10, 5, 0⟩ : PyChannelRec)) := by
  refine ⟨by decide, by decide, by decide, by decide⟩

/-- C8 (amended): `get_config` returns a shallow copy — an equal top-level
mapping sharing the nested per-channel records.  Rebinding top-level
entries of the copy (here: removing a channel key) is invisible through
the store's internal configuration, but an in-place mutation of a nested
tracker record through the copy's shared reference is visible in the
store's view of that destination. -/
theorem get_config_shallow_copy
    (h : PyHeap) (c : PyConfigObj) (cid addr : Nat) (r0 r : PyChannelRec)
    (h1 : alookup c.channels cid = some addr)
    (h2 : alookup h addr = some r0) :
    dict_copy c = c ∧
    view_tracker h c cid = some r0 ∧
    view_tracker h
      { dict_copy c with channels := aremove (dict_copy c).channels cid }
      cid = none ∧
    view_tracker (heap_write h addr r) c cid = some r := by
  refine ⟨rfl, ?_, ?_, ?_⟩
  · simp [view_tracker, h1, h2]
  · simp [view_tracker, dict_copy, alookup_aremove_self]
  · simp [view_tracker, heap_write, h1, alookup_aset_self]

/-- C8 witness: the theorem at a concrete one-channel store. -/
theorem get_config_shallow_copy_witness :
    dict_copy (⟨[(2, 7)], 5⟩ : PyConfigObj) = ⟨[(2, 7)], 5⟩ ∧
    view_tracker [(7, ⟨1, 5, 0⟩)] ⟨[(2, 7)], 5⟩ 2 = some ⟨1, 5, 0⟩ ∧
    view_tracker [(7, ⟨1, 5, 0⟩)]
      { dict_copy (⟨[(2, 7)], 5⟩ : PyConfigObj) with
          channels := aremove (dict_copy
            (⟨[(2, 7)], 5⟩ : PyConfigObj)).channels 2 } 2 = none ∧
    view_tracker (heap_write [(7, ⟨1, 5, 0⟩)] 7 ⟨1, 5, 60⟩)
      ⟨[(2, 7)], 5⟩ 2 = some ⟨1, 5, 60⟩ :=
  get_config_shallow_copy [(7, ⟨1, 5, 0⟩)] ⟨[(2, 7)], 5⟩ 2 7
    ⟨1, 5, 0⟩ ⟨1, 5, 60⟩ rfl rfl

end StatusBot
